import Mathlib

/-!
Verification of the foodgram recipe-backend core against its specification.

The development shallowly embeds the relational state and the handlers of
`backend/api/views.py` together with the referential-integrity rules declared
in `backend/recipes/migrations/0002_initial.py`:

- the entity store (`DB`) holds the User, Recipe, IngredientRecipe, Favorite,
  Shopping_cart and Subscriptions tables as lists of rows;
- `add_to` / `delete_from` embed `RecipeViewSet.add_to` and
  `RecipeViewSet.delete_from` (the favorite / shopping-cart toggles);
- `buildList`, `shoppingListBody` and `download_shopping_cart` embed
  `RecipeViewSet.download_shopping_cart` (filter by cart membership, group by
  ingredient name and measurement unit, sum the amounts, order by name,
  render, wrap in an attachment response);
- `subscribe` embeds the POST branch of `CustomUserViewSet.subscribe`;
- `recipeDelete` / `userDelete` embed the `on_delete` rules of the migration
  (CASCADE for the association rows, SET_NULL for `Recipe.author`).

SQL string ordering (`order_by('ingredient__name')`) is modelled as the
case-sensitive ordinal comparison `charListLE` on the code points of the name.
-/

/-- A row of the `Ingredient` table: name and measurement unit
(unique together, per the `unique_name_measurement_unit` constraint). -/
structure Ingredient where
  name : String
  measurement_unit : String
deriving DecidableEq, Repr

/-- A row of the `IngredientRecipe` table: an ingredient occurring in a
recipe with a quantity. -/
structure IngredientRecipe where
  recipe : Nat
  ingredient : Ingredient
  amount : Nat
deriving DecidableEq, Repr

/-- A row of the `Recipe` table (only the fields the claims need); `author`
is nullable, per `null=True` on the `author` foreign key. -/
structure Recipe where
  id : Nat
  author : Option Nat
deriving DecidableEq, Repr

/-- A (user, recipe) association row: one `Favorite` or one `Shopping_cart`
entry. -/
structure Edge where
  user : Nat
  recipe : Nat
deriving DecidableEq, Repr

/-- A row of the `Subscriptions` table: `user` follows `author`. -/
structure Subscriptions where
  user : Nat
  author : Nat
deriving DecidableEq, Repr

/-- The relational state: one list of rows per table. -/
structure DB where
  users : List Nat
  recipes : List Recipe
  ingredient_recipe : List IngredientRecipe
  favorite : List Edge
  shopping_cart : List Edge
  subscriptions : List Subscriptions
deriving DecidableEq, Repr

/-- The two edge kinds the toggle endpoints operate on: the `Favorite` model
and the `Shopping_cart` model. -/
inductive EdgeKind where
  | favorite
  | shopping_cart
deriving DecidableEq, Repr

/-- The table of the given edge kind. -/
def DB.edges (db : DB) : EdgeKind → List Edge
  | .favorite => db.favorite
  | .shopping_cart => db.shopping_cart

/-- Replace the table of the given edge kind. -/
def DB.setEdges (db : DB) : EdgeKind → List Edge → DB
  | .favorite, l => { db with favorite := l }
  | .shopping_cart, l => { db with shopping_cart := l }

/-- Number of edge rows of the given kind for the pair (user, recipe). -/
def edgeCount (db : DB) (model : EdgeKind) (u r : Nat) : Nat :=
  (db.edges model).countP (fun e => e.user == u && e.recipe == r)

/-- An HTTP response as the toggle and subscribe handlers produce it: a
status code and, when the handler returns `{'errors': ...}`, that message. -/
structure Resp where
  status : Nat
  errors : Option String
deriving DecidableEq, Repr

/-- `RecipeViewSet.add_to`: if an edge of this kind for (user, pk) already
exists, answer 400 with `{'errors': 'Рецепт уже добавлен!'}`; otherwise look
up the recipe (404 when absent, via `get_object_or_404`) and insert one edge
row, answering 201. -/
def add_to (db : DB) (model : EdgeKind) (user pk : Nat) : Resp × DB :=
  if (db.edges model).any (fun e => e.user == user && e.recipe == pk) then
    ({ status := 400, errors := some "Рецепт уже добавлен!" }, db)
  else
    match db.recipes.find? (fun r => r.id == pk) with
    | none => ({ status := 404, errors := none }, db)
    | some _ =>
        ({ status := 201, errors := none },
         db.setEdges model ((db.edges model) ++ [{ user := user, recipe := pk }]))

/-- `RecipeViewSet.delete_from`: if edge rows of this kind for (user, pk)
exist, delete them and answer 204; otherwise answer 400 with
`{'errors': 'Рецепт уже удален!'}`. The recipe itself is never looked up. -/
def delete_from (db : DB) (model : EdgeKind) (user pk : Nat) : Resp × DB :=
  if (db.edges model).any (fun e => e.user == user && e.recipe == pk) then
    ({ status := 204, errors := none },
     db.setEdges model
       ((db.edges model).filter (fun e => !(e.user == user && e.recipe == pk))))
  else
    ({ status := 400, errors := some "Рецепт уже удален!" }, db)

/-- Ordinal (code-point) comparison of strings as character lists: the
order `ORDER BY ingredient__name` sorts by. -/
def charListLE : List Char → List Char → Bool
  | [], _ => true
  | _ :: _, [] => false
  | a :: as, b :: bs =>
    if a.toNat < b.toNat then true
    else if b.toNat < a.toNat then false
    else charListLE as bs

/-- Ordinal order on ingredient names. -/
def nameLE (a b : String) : Prop := charListLE a.data b.data = true

instance : DecidableRel nameLE := fun a b =>
  inferInstanceAs (Decidable (charListLE a.data b.data = true))

/-- Order on the grouping keys (name, measurement unit) by name only, as
`order_by('ingredient__name')` does. -/
def keyLE (a b : String × String) : Prop := nameLE a.1 b.1

instance : DecidableRel keyLE := fun a b => inferInstanceAs (Decidable (nameLE a.1 b.1))

theorem charListLE_total : ∀ as bs, charListLE as bs = true ∨ charListLE bs as = true := by
  intro as
  induction as with
  | nil => intro bs; left; rfl
  | cons a as ih =>
    intro bs
    cases bs with
    | nil => right; rfl
    | cons b bs =>
      simp only [charListLE]
      rcases Nat.lt_trichotomy a.toNat b.toNat with h | h | h
      · left; simp [h]
      · have h1 : ¬ a.toNat < b.toNat := by omega
        have h2 : ¬ b.toNat < a.toNat := by omega
        rcases ih bs with h3 | h3 <;> [left; right] <;> simp [h1, h2, h3]
      · right; simp [h]

theorem charListLE_trans : ∀ as bs cs, charListLE as bs = true → charListLE bs cs = true →
    charListLE as cs = true := by
  intro as
  induction as with
  | nil => intros; rfl
  | cons a as ih =>
    intro bs cs hab hbc
    cases bs with
    | nil => simp [charListLE] at hab
    | cons b bs =>
      cases cs with
      | nil => simp [charListLE] at hbc
      | cons c cs =>
        simp only [charListLE] at hab hbc ⊢
        by_cases h1 : a.toNat < b.toNat <;> by_cases h2 : b.toNat < c.toNat <;>
          simp [h1, h2] at hab hbc ⊢
        · left; omega
        · left; omega
        · left; omega
        · exact Or.inr ⟨by omega, ih bs cs hab.2 hbc.2⟩

instance : IsTotal (String × String) keyLE :=
  ⟨fun a b => charListLE_total a.1.data b.1.data⟩

instance : IsTrans (String × String) keyLE :=
  ⟨fun a b c hab hbc => charListLE_trans a.1.data b.1.data c.1.data hab hbc⟩

/-- The `IngredientRecipe` rows of the recipes currently in the user's cart:
the filter `recipe__in_shopping_cart__user=user`. -/
def cart_rows (db : DB) (user : Nat) : List IngredientRecipe :=
  db.ingredient_recipe.filter (fun ir =>
    db.shopping_cart.any (fun e => e.user == user && e.recipe == ir.recipe))

/-- The distinct grouping keys (ingredient name, measurement unit) of a row
set: the `values('ingredient__name', 'ingredient__measurement_unit')`
grouping. -/
def groupKeys (rows : List IngredientRecipe) : List (String × String) :=
  (rows.map (fun r => (r.ingredient.name, r.ingredient.measurement_unit))).dedup

/-- The summed amount of one group: the `annotate(amount=Sum('amount'))`
aggregate. -/
def groupSum (rows : List IngredientRecipe) (k : String × String) : Nat :=
  ((rows.filter (fun r =>
      r.ingredient.name == k.1 && r.ingredient.measurement_unit == k.2)).map
    (fun r => r.amount)).sum

/-- The grouped, summed and name-ordered shopping list of the user's cart:
the queryset of `download_shopping_cart`. -/
def buildList (db : DB) (user : Nat) : List (String × String × Nat) :=
  ((groupKeys (cart_rows db user)).insertionSort keyLE).map
    (fun k => (k.1, k.2, groupSum (cart_rows db user) k))

/-- One rendered line: the three adjacent f-string fragments
`" - {name} "`, `"({unit}) - "`, `" - {amount}"` of the list comprehension. -/
def shoppingListLine (name u : String) (amount : Nat) : String :=
  (" - " ++ name ++ " ") ++ ("(" ++ u ++ ") - ") ++ (" - " ++ toString amount)

/-- The full document: the header `'Список Покупок'` concatenated (with no
separator) with the newline-join of the rendered lines. -/
def shoppingListBody (ts : List (String × String × Nat)) : String :=
  "Список Покупок" ++
    String.intercalate "\n" (ts.map (fun t => shoppingListLine t.1 t.2.1 t.2.2))

/-- The download endpoint's result: either a bare 400 (whose `body` is the
data passed to `Response`, here always `none`) or a file response with a
content type, a `Content-Disposition` header value and a body. -/
inductive DownloadResult where
  | badRequest (body : Option String)
  | file (contentType : String) (contentDisposition : String) (body : String)
deriving DecidableEq, Repr

/-- The `Content-Disposition` header of a file result, when there is one. -/
def dispositionOf : DownloadResult → Option String
  | .file _ d _ => some d
  | .badRequest _ => none

/-- The content type of a file result, when there is one. -/
def contentTypeOf : DownloadResult → Option String
  | .file c _ _ => some c
  | .badRequest _ => none

/-- Whether the result carries a structured JSON error body. -/
def hasJsonErrorBody : DownloadResult → Bool
  | .badRequest (some _) => true
  | _ => false

/-- `RecipeViewSet.download_shopping_cart`: bare 400 when the user's cart is
empty; otherwise the rendered list as a `text/plain` response whose
`Content-Disposition` is built from `file = 'shopping_list.txt'` by the
f-string `f'attachment; filename="{file}.txt"'`. -/
def download_shopping_cart (db : DB) (user : Nat) : DownloadResult :=
  if !(db.shopping_cart.any (fun e => e.user == user)) then
    .badRequest none
  else
    let file := "shopping_list.txt"
    .file "text/plain"
      ("attachment; filename=\"" ++ file ++ ".txt\"")
      (shoppingListBody (buildList db user))

/-- Modelled from the spec: the validation of `UserSubscribeSerializer`
(`backend/api/serializers.py` is not among the source files). Per §4.4 the
subscribe operation "fails ... if a subscription edge already exists (no
silent idempotence)", and per §9 "the reviewed logic does not forbid a user
from subscribing to themselves", so the validation rejects exactly the
duplicate edge and contains no self-subscription check. -/
def subscribeSerializerError (db : DB) (user author : Nat) : Option String :=
  if db.subscriptions.any (fun s => s.user == user && s.author == author) then
    some "duplicate"
  else none

/-- The POST branch of `CustomUserViewSet.subscribe`: 404 when the author id
matches no user (`get_object_or_404`), 400 when the serializer validation
fails, otherwise one `Subscriptions` row is created and 201 returned. -/
def subscribe (db : DB) (user author_id : Nat) : Resp × DB :=
  if !(db.users.any (fun x => x == author_id)) then
    ({ status := 404, errors := none }, db)
  else
    match subscribeSerializerError db user author_id with
    | some msg => ({ status := 400, errors := some msg }, db)
    | none =>
        ({ status := 201, errors := none },
         { db with subscriptions :=
             db.subscriptions ++ [{ user := user, author := author_id }] })

/-- Deleting a recipe, per the migration's `on_delete` rules: the
`Favorite`, `Shopping_cart` and `IngredientRecipe` rows referencing it are
CASCADE-deleted; users and subscriptions are untouched. -/
def recipeDelete (db : DB) (rid : Nat) : DB :=
  { db with
    recipes := db.recipes.filter (fun rec => !(rec.id == rid)),
    ingredient_recipe := db.ingredient_recipe.filter (fun ir => !(ir.recipe == rid)),
    favorite := db.favorite.filter (fun e => !(e.recipe == rid)),
    shopping_cart := db.shopping_cart.filter (fun e => !(e.recipe == rid)) }

/-- Deleting a user, per the migration's `on_delete` rules: that user's
`Favorite`, `Shopping_cart` and `Subscriptions` rows are CASCADE-deleted,
and `Recipe.author` is SET_NULL on the recipes they authored. -/
def userDelete (db : DB) (uid : Nat) : DB :=
  { users := db.users.filter (fun x => !(x == uid)),
    recipes := db.recipes.map (fun rec =>
      if rec.author == some uid then { rec with author := none } else rec),
    ingredient_recipe := db.ingredient_recipe,
    favorite := db.favorite.filter (fun e => !(e.user == uid)),
    shopping_cart := db.shopping_cart.filter (fun e => !(e.user == uid)),
    subscriptions := db.subscriptions.filter (fun s =>
      !(s.user == uid || s.author == uid)) }

/-- The claimed line format, written from the spec's words:
` - <name> (<unit>) -  - <amount>` with the literal double-dash artifact. -/
def specFormatLine (name u : String) (amount : Nat) : String :=
  " - " ++ name ++ " (" ++ u ++ ") -  - " ++ toString amount

/-- The cart of spec §8: user 1 holds recipe 10 (2 eggs, 100 g flour) and
recipe 11 (1 egg, 50 g flour) in the cart; recipe 10 is also a favorite. -/
def exampleDB : DB :=
  { users := [1, 2],
    recipes := [{ id := 10, author := some 2 }, { id := 11, author := some 2 }],
    ingredient_recipe :=
      [{ recipe := 10, ingredient := { name := "egg", measurement_unit := "pcs" }, amount := 2 },
       { recipe := 10, ingredient := { name := "flour", measurement_unit := "g" }, amount := 100 },
       { recipe := 11, ingredient := { name := "egg", measurement_unit := "pcs" }, amount := 1 },
       { recipe := 11, ingredient := { name := "flour", measurement_unit := "g" }, amount := 50 }],
    favorite := [{ user := 1, recipe := 10 }],
    shopping_cart := [{ user := 1, recipe := 10 }, { user := 1, recipe := 11 }],
    subscriptions := [] }

/-- A state where user 7 exists but has no cart entries, no favorites and no
subscriptions, and no recipe with id 99 exists. -/
def cartlessDB : DB :=
  { users := [7],
    recipes := [{ id := 10, author := some 7 }],
    ingredient_recipe := [],
    favorite := [],
    shopping_cart := [],
    subscriptions := [] }

theorem edges_setEdges (db : DB) (model : EdgeKind) (l : List Edge) :
    (db.setEdges model l).edges model = l := by
  cases model <;> rfl

theorem length_filter_not_countP {α : Type} (p : α → Bool) (l : List α) :
    (l.filter (fun e => !(p e))).length + l.countP p = l.length := by
  induction l with
  | nil => rfl
  | cons a l ih =>
    by_cases h : p a <;> simp [List.filter_cons, List.countP_cons, h] <;> omega

theorem any_of_countP_one {α : Type} (p : α → Bool) (l : List α)
    (h : l.countP p = 1) : l.any p = true := by
  rw [List.any_eq_true]
  have h0 : 0 < l.countP p := by omega
  rw [List.countP_pos_iff] at h0
  exact h0

theorem any_eq_false_of_countP_zero {α : Type} (p : α → Bool) (l : List α)
    (h : l.countP p = 0) : l.any p = false := by
  rw [List.any_eq_false]
  intro x hx hpx
  have := List.countP_pos_iff.mpr ⟨x, hx, hpx⟩
  omega

/-- C2: for an existing recipe `r` with an existing edge for (u, r) in the
given kind, `add_to` answers 400 with an errors message, leaves the state
unchanged (inserts no row), and the edge count for (u, r) stays 1: the
operation is not silently idempotent. -/
theorem add_to_duplicate_spec (db : DB) (model : EdgeKind) (u r : Nat)
    (hrec : ∃ rec ∈ db.recipes, rec.id = r)
    (hcnt : edgeCount db model u r = 1) :
    (add_to db model u r).1.status = 400
    ∧ (add_to db model u r).1.errors = some "Рецепт уже добавлен!"
    ∧ (add_to db model u r).2 = db
    ∧ edgeCount (add_to db model u r).2 model u r = 1 := by
  have hany := any_of_countP_one _ _ hcnt
  unfold add_to
  simp only [hany, if_true]
  exact ⟨trivial, trivial, trivial, hcnt⟩

/-- C2 witness: the duplicate add of favorite (user 1, recipe 10) in the
example state. -/
theorem add_to_duplicate_witness :
    (add_to exampleDB EdgeKind.favorite 1 10).1.status = 400
    ∧ (add_to exampleDB EdgeKind.favorite 1 10).1.errors = some "Рецепт уже добавлен!"
    ∧ (add_to exampleDB EdgeKind.favorite 1 10).2 = exampleDB
    ∧ edgeCount (add_to exampleDB EdgeKind.favorite 1 10).2 EdgeKind.favorite 1 10 = 1 :=
  add_to_duplicate_spec exampleDB EdgeKind.favorite 1 10 (by decide) (by decide)

/-- C3: `delete_from` with no matching edge answers 400 with the
"already removed" errors message and leaves the state unchanged; with
exactly one matching edge (the uniqueness invariant) it answers 204 with no
body and deletes exactly one edge row. -/
theorem delete_from_spec (db : DB) (model : EdgeKind) (u r : Nat) :
    (edgeCount db model u r = 0 →
      (delete_from db model u r).1.status = 400
      ∧ (delete_from db model u r).1.errors = some "Рецепт уже удален!"
      ∧ (delete_from db model u r).2 = db)
    ∧ (edgeCount db model u r = 1 →
      (delete_from db model u r).1.status = 204
      ∧ (delete_from db model u r).1.errors = none
      ∧ ((delete_from db model u r).2.edges model).length + 1 = (db.edges model).length
      ∧ edgeCount (delete_from db model u r).2 model u r = 0) := by
  constructor
  · intro h0
    have hany := any_eq_false_of_countP_zero _ _ h0
    unfold delete_from
    simp only [hany, Bool.false_eq_true, if_false]
    exact ⟨trivial, trivial, trivial⟩
  · intro h1
    have hany := any_of_countP_one _ _ h1
    unfold delete_from
    simp only [hany, if_true]
    refine ⟨trivial, trivial, ?_, ?_⟩
    · rw [edges_setEdges]
      have := length_filter_not_countP
        (fun e => e.user == u && e.recipe == r) (db.edges model)
      unfold edgeCount at h1
      omega
    · unfold edgeCount
      rw [edges_setEdges]
      rw [List.countP_eq_zero]
      intro e he hc
      rw [List.mem_filter] at he
      rw [hc] at he
      simp at he

/-- C3 witness: removing a favorite edge that is absent (state unchanged,
400 "already removed") and one that is present (204, one row fewer). -/
theorem delete_from_witness :
    ((delete_from cartlessDB EdgeKind.favorite 7 10).1.status = 400
      ∧ (delete_from cartlessDB EdgeKind.favorite 7 10).1.errors = some "Рецепт уже удален!"
      ∧ (delete_from cartlessDB EdgeKind.favorite 7 10).2 = cartlessDB)
    ∧ ((delete_from exampleDB EdgeKind.favorite 1 10).1.status = 204
      ∧ (delete_from exampleDB EdgeKind.favorite 1 10).1.errors = none
      ∧ ((delete_from exampleDB EdgeKind.favorite 1 10).2.edges EdgeKind.favorite).length + 1
          = (exampleDB.edges EdgeKind.favorite).length
      ∧ edgeCount (delete_from exampleDB EdgeKind.favorite 1 10).2 EdgeKind.favorite 1 10 = 0) :=
  ⟨(delete_from_spec cartlessDB EdgeKind.favorite 7 10).1 (by decide),
   (delete_from_spec exampleDB EdgeKind.favorite 1 10).2 (by decide)⟩

/-- C10: `delete_from` never looks the recipe up: with no matching edge it
answers 400 with the "already removed" errors body and leaves the state
unchanged even when no recipe with id `pk` exists at all — never 404. -/
theorem delete_from_no_recipe_check (db : DB) (model : EdgeKind) (u pk : Nat)
    (hno : ∀ rec ∈ db.recipes, rec.id ≠ pk)
    (hcnt : edgeCount db model u pk = 0) :
    (delete_from db model u pk).1.status = 400
    ∧ (delete_from db model u pk).1.errors = some "Рецепт уже удален!"
    ∧ (delete_from db model u pk).1.status ≠ 404
    ∧ (delete_from db model u pk).2 = db := by
  have hany := any_eq_false_of_countP_zero _ _ hcnt
  unfold delete_from
  simp only [hany, Bool.false_eq_true, if_false]
  exact ⟨trivial, trivial, by decide, trivial⟩

/-- C10 witness: removing the favorite edge for recipe id 99, which exists
nowhere in the state. -/
theorem delete_from_no_recipe_check_witness :
    (delete_from cartlessDB EdgeKind.favorite 7 99).1.status = 400
    ∧ (delete_from cartlessDB EdgeKind.favorite 7 99).1.errors = some "Рецепт уже удален!"
    ∧ (delete_from cartlessDB EdgeKind.favorite 7 99).1.status ≠ 404
    ∧ (delete_from cartlessDB EdgeKind.favorite 7 99).2 = cartlessDB :=
  delete_from_no_recipe_check cartlessDB EdgeKind.favorite 7 99 (by decide) (by decide)

/-- C1: for every user, `buildList` has one group per distinct (ingredient
name, measurement unit) key among the IngredientRecipe rows of the recipes
in the user's cart, each group's amount being the sum over the rows with its
key, and the groups are ordered by ingredient name ascending; on the spec's
example cart (recipe 10: 2 eggs, 100 g flour; recipe 11: 1 egg, 50 g flour)
it yields exactly the two groups egg→3 and flour→150, egg first. -/
theorem buildList_spec :
    (∀ db user,
      List.Sorted nameLE ((buildList db user).map (fun t => t.1))
      ∧ (∀ k : String × String,
          k ∈ (buildList db user).map (fun t => (t.1, t.2.1)) ↔
          k ∈ (cart_rows db user).map
            (fun r => (r.ingredient.name, r.ingredient.measurement_unit)))
      ∧ ((buildList db user).map (fun t => (t.1, t.2.1))).Nodup
      ∧ (∀ t ∈ buildList db user, t.2.2 = groupSum (cart_rows db user) (t.1, t.2.1)))
    ∧ buildList exampleDB 1 = [("egg", "pcs", 3), ("flour", "g", 150)] := by
  constructor
  · intro db user
    have hkeys : (buildList db user).map (fun t => (t.1, t.2.1)) =
        (groupKeys (cart_rows db user)).insertionSort keyLE := by
      unfold buildList
      rw [List.map_map]
      exact List.map_id _
    refine ⟨?_, ?_, ?_, ?_⟩
    · have hs := List.sorted_insertionSort keyLE (groupKeys (cart_rows db user))
      have hmm : (buildList db user).map (fun t => t.1) =
          ((groupKeys (cart_rows db user)).insertionSort keyLE).map (fun k => k.1) := by
        unfold buildList; rw [List.map_map]; rfl
      rw [hmm]
      exact hs.map _ (fun a b h => h)
    · intro k
      rw [hkeys, List.mem_insertionSort]
      unfold groupKeys
      rw [List.mem_dedup]
    · rw [hkeys]
      exact ((List.perm_insertionSort keyLE _).nodup_iff).mpr (List.nodup_dedup _)
    · intro t ht
      unfold buildList at ht
      rw [List.mem_map] at ht
      obtain ⟨k, hk, rfl⟩ := ht
      rfl
  · decide

/-- C1 witness: on the example cart the output is sorted by name and equals
the two claimed groups. -/
theorem buildList_spec_witness :
    List.Sorted nameLE ((buildList exampleDB 1).map (fun t => t.1))
    ∧ buildList exampleDB 1 = [("egg", "pcs", 3), ("flour", "g", 150)] :=
  ⟨(buildList_spec.1 exampleDB 1).1, buildList_spec.2⟩

theorem line_eq (name u : String) (amount : Nat) :
    shoppingListLine name u amount = specFormatLine name u amount := by
  unfold shoppingListLine specFormatLine
  apply String.ext
  simp [String.data_append]

/-- C4 counterexample: on the example cart the document is not the
newline-join of the per-triple lines in the claimed format — the header
`Список Покупок` is concatenated with no newline, so the first triple's line
is `Список Покупок - egg (pcs) -  - 3` rather than ` - egg (pcs) -  - 3`. -/
theorem shopping_list_render_counterexample :
    shoppingListBody (buildList exampleDB 1) ≠
      String.intercalate "\n"
        ((buildList exampleDB 1).map (fun t => specFormatLine t.1 t.2.1 t.2.2))
    ∧ shoppingListBody (buildList exampleDB 1) =
        "Список Покупок - egg (pcs) -  - 3\n - flour (g) -  - 150" := by
  constructor
  · decide
  · decide

/-- C4 amended: every triple is rendered exactly in the format
` - <name> (<unit>) -  - <amount>` (double-dash artifact included) and the
lines are joined by newlines, but the header `Список Покупок` is prepended
with no separating newline, so the first triple shares its line with the
header. -/
theorem shopping_list_render_amended (ts : List (String × String × Nat)) :
    shoppingListBody ts =
      "Список Покупок" ++
        String.intercalate "\n" (ts.map (fun t => specFormatLine t.1 t.2.1 t.2.2)) := by
  unfold shoppingListBody
  have hf : (fun t : String × String × Nat => shoppingListLine t.1 t.2.1 t.2.2) =
      (fun t : String × String × Nat => specFormatLine t.1 t.2.1 t.2.2) :=
    funext fun t => line_eq t.1 t.2.1 t.2.2
  rw [hf]

/-- C4 witness: the amended rendering at the example cart's two groups. -/
theorem shopping_list_render_amended_witness :
    shoppingListBody [("egg", "pcs", 3), ("flour", "g", 150)] =
      "Список Покупок" ++
        String.intercalate "\n"
          (([("egg", "pcs", 3), ("flour", "g", 150)]
            : List (String × String × Nat)).map
              (fun t => specFormatLine t.1 t.2.1 t.2.2)) :=
  shopping_list_render_amended [("egg", "pcs", 3), ("flour", "g", 150)]

/-- C5 counterexample: on the example cart the download's
`Content-Disposition` names the file `shopping_list.txt.txt` (the code
appends `.txt` to `file = 'shopping_list.txt'`), not `shopping_list.txt`. -/
theorem download_filename_counterexample :
    dispositionOf (download_shopping_cart exampleDB 1) =
      some "attachment; filename=\"shopping_list.txt.txt\""
    ∧ dispositionOf (download_shopping_cart exampleDB 1) ≠
        some "attachment; filename=\"shopping_list.txt\"" := by
  constructor
  · decide
  · decide

/-- C5 amended: for a non-empty cart the download is a `text/plain`
attachment, but its filename is `shopping_list.txt.txt`. -/
theorem download_attachment_amended (db : DB) (u : Nat)
    (h : db.shopping_cart.any (fun e => e.user == u) = true) :
    contentTypeOf (download_shopping_cart db u) = some "text/plain"
    ∧ dispositionOf (download_shopping_cart db u) =
        some "attachment; filename=\"shopping_list.txt.txt\"" := by
  unfold download_shopping_cart
  simp only [h, Bool.not_true, Bool.false_eq_true, if_false]
  exact ⟨rfl, rfl⟩

/-- C5 witness: the attachment fields on the example cart. -/
theorem download_attachment_amended_witness :
    contentTypeOf (download_shopping_cart exampleDB 1) = some "text/plain"
    ∧ dispositionOf (download_shopping_cart exampleDB 1) =
        some "attachment; filename=\"shopping_list.txt.txt\"" :=
  download_attachment_amended exampleDB 1 (by decide)

/-- C6 counterexample: for user 7, whose cart is empty, the download answers
a bare 400 — `Response(status=HTTP_400_BAD_REQUEST)` carries no data — so no
structured JSON error body is surfaced. -/
theorem download_empty_cart_counterexample :
    download_shopping_cart cartlessDB 7 = DownloadResult.badRequest none
    ∧ hasJsonErrorBody (download_shopping_cart cartlessDB 7) = false := by
  constructor
  · decide
  · decide

/-- C6 amended: on an empty cart the download fails with HTTP 400 and
produces no list output, but the 400 carries no body at all (no structured
JSON error message). -/
theorem download_empty_cart_amended (db : DB) (u : Nat)
    (h : db.shopping_cart.any (fun e => e.user == u) = false) :
    download_shopping_cart db u = DownloadResult.badRequest none := by
  unfold download_shopping_cart
  simp [h]

/-- C6 witness: the empty-cart 400 for user 7. -/
theorem download_empty_cart_amended_witness :
    download_shopping_cart cartlessDB 7 = DownloadResult.badRequest none :=
  download_empty_cart_amended cartlessDB 7 (by decide)

/-- C7: deleting a recipe removes every Favorite, Shopping_cart and
IngredientRecipe row referencing it (CASCADE), keeps every association row
not referencing it, and leaves the User table — the author included —
untouched. -/
theorem recipeDelete_cascade_spec (db : DB) (rid : Nat) :
    (recipeDelete db rid).users = db.users
    ∧ (∀ e ∈ (recipeDelete db rid).favorite, e.recipe ≠ rid)
    ∧ (∀ e ∈ (recipeDelete db rid).shopping_cart, e.recipe ≠ rid)
    ∧ (∀ ir ∈ (recipeDelete db rid).ingredient_recipe, ir.recipe ≠ rid)
    ∧ (∀ e ∈ db.favorite, e.recipe ≠ rid → e ∈ (recipeDelete db rid).favorite)
    ∧ (∀ e ∈ db.shopping_cart, e.recipe ≠ rid → e ∈ (recipeDelete db rid).shopping_cart)
    ∧ (∀ ir ∈ db.ingredient_recipe, ir.recipe ≠ rid →
        ir ∈ (recipeDelete db rid).ingredient_recipe) := by
  unfold recipeDelete
  refine ⟨rfl, ?_, ?_, ?_, ?_, ?_, ?_⟩
  · intro e he
    simp only [List.mem_filter] at he
    simpa using he.2
  · intro e he
    simp only [List.mem_filter] at he
    simpa using he.2
  · intro ir hir
    simp only [List.mem_filter] at hir
    simpa using hir.2
  · intro e he hne
    simp only [List.mem_filter]
    exact ⟨he, by simpa using hne⟩
  · intro e he hne
    simp only [List.mem_filter]
    exact ⟨he, by simpa using hne⟩
  · intro ir hir hne
    simp only [List.mem_filter]
    exact ⟨hir, by simpa using hne⟩

/-- C7 witness: deleting recipe 10 from the example state keeps the users
and purges its favorite row. -/
theorem recipeDelete_cascade_witness :
    (recipeDelete exampleDB 10).users = exampleDB.users
    ∧ (recipeDelete exampleDB 10).favorite = [] :=
  ⟨(recipeDelete_cascade_spec exampleDB 10).1, by decide⟩

/-- C8: deleting a user keeps every recipe (same ids, in order) and sets the
author reference of the recipes they authored to null, leaving other
recipes' authors unchanged. -/
theorem userDelete_set_null_spec (db : DB) (uid : Nat) :
    (userDelete db uid).recipes.map (fun r => r.id) = db.recipes.map (fun r => r.id)
    ∧ (∀ r ∈ (userDelete db uid).recipes, r.author ≠ some uid)
    ∧ (∀ r ∈ db.recipes, r.author = some uid →
        ({ r with author := none } : Recipe) ∈ (userDelete db uid).recipes)
    ∧ (∀ r ∈ db.recipes, r.author ≠ some uid → r ∈ (userDelete db uid).recipes) := by
  refine ⟨?_, ?_, ?_, ?_⟩
  · show (db.recipes.map _).map _ = _
    rw [List.map_map]
    apply List.map_congr_left
    intro r hr
    by_cases h : r.author = some uid <;> simp [h]
  · intro r hr
    simp only [userDelete, List.mem_map] at hr
    obtain ⟨r0, hr0, rfl⟩ := hr
    by_cases h : r0.author == some uid <;> simp [h]
    intro hc
    rw [hc] at h
    simp at h
  · intro r hr h
    simp only [userDelete, List.mem_map]
    refine ⟨r, hr, ?_⟩
    rw [if_pos (by simp [h])]
  · intro r hr h
    simp only [userDelete, List.mem_map]
    refine ⟨r, hr, ?_⟩
    rw [if_neg (by simp [h])]

/-- C8 witness: deleting user 2 (the author) from the example state keeps
both recipes and nulls their author fields. -/
theorem userDelete_set_null_witness :
    (userDelete exampleDB 2).recipes.map (fun r => r.id)
      = exampleDB.recipes.map (fun r => r.id)
    ∧ (userDelete exampleDB 2).recipes
      = [{ id := 10, author := none }, { id := 11, author := none }] :=
  ⟨(userDelete_set_null_spec exampleDB 2).1, by decide⟩

/-- C9: the subscribe handler contains no self-subscription check: for a
user with no existing self-edge, subscribing to their own id is accepted
(201) and creates the Subscriptions edge (user, user). -/
theorem subscribe_self_allowed (db : DB) (u : Nat)
    (hu : u ∈ db.users)
    (hno : db.subscriptions.any (fun s => s.user == u && s.author == u) = false) :
    (subscribe db u u).1.status = 201
    ∧ ({ user := u, author := u } : Subscriptions) ∈ (subscribe db u u).2.subscriptions := by
  have husers : db.users.any (fun x => x == u) = true :=
    List.any_eq_true.mpr ⟨u, hu, by simp⟩
  unfold subscribe subscribeSerializerError
  simp [husers, hno]

/-- C9 witness: user 7, with no existing self-edge, self-subscribes
successfully. -/
theorem subscribe_self_allowed_witness :
    (subscribe cartlessDB 7 7).1.status = 201
    ∧ ({ user := 7, author := 7 } : Subscriptions) ∈ (subscribe cartlessDB 7 7).2.subscriptions :=
  subscribe_self_allowed cartlessDB 7 (by decide) (by decide)
